import Mathlib

/-
Verification of the character-rigging toolkit: a shallow embedding of the
relevant functions of `maya_utils/object_utils.py`, `rig_utils/control_utils.py`
and `rig_modules/singleton_v0000.py`, together with theorems settling the
specification claims.  Strings manipulated character-wise are modelled as
`List Char`; the host scene is modelled as explicit state records threaded
through each operation.
-/

namespace RigSpec

/-! ### Python string primitives

`occursAt sep s i` holds when `sep` occurs in `s` starting at index `i`;
`containsSub` is Python's `sep in s`; `rpartition` is Python's
`s.rpartition(sep)` (split on the last occurrence, or `([], [], s)` when the
separator does not occur); `pyReplace` is Python's `s.replace(old, new)`
(left-to-right, non-overlapping). -/

def occursAt (sep s : List Char) (i : Nat) : Bool :=
  List.take sep.length (List.drop i s) == sep

def containsSub (sep s : List Char) : Bool :=
  (List.range (s.length + 1)).any (fun i => occursAt sep s i)

def rfindAux (sep s : List Char) : Nat → Option Nat
  | 0 => if occursAt sep s 0 then some 0 else none
  | i + 1 => if occursAt sep s (i + 1) then some (i + 1) else rfindAux sep s i

def rpartition (s sep : List Char) : List Char × List Char × List Char :=
  match rfindAux sep s s.length with
  | some i => (s.take i, sep, s.drop (i + sep.length))
  | none => ([], [], s)

def pyReplaceAux (old new : List Char) : Nat → List Char → List Char
  | 0, s => s
  | fuel + 1, s =>
    match s with
    | [] => []
    | c :: rest =>
      if occursAt old s 0 then new ++ pyReplaceAux old new fuel (s.drop old.length)
      else c :: pyReplaceAux old new fuel rest

def pyReplace (s old new : List Char) : List Char :=
  pyReplaceAux old new s.length s

/-! ### control_utils: naming convention (source lines 23-24, 106-146)

`CTRL_SUFFIX = 'ctrl'`; the check and remove helpers test for and strip the
literal `'_ctrl'` via substring containment and right-partition. -/

def CTRL_SUFFIX : List Char := "ctrl".toList

def LOCATOR_SUFFIX : List Char := "loc".toList

def ctrl_suffix_full : List Char := "_".toList ++ CTRL_SUFFIX

def loc_suffix_full : List Char := "_".toList ++ LOCATOR_SUFFIX

def check_control_suffix_name (object_name : List Char) : Bool :=
  containsSub ctrl_suffix_full object_name

def remove_control_suffix_name (object_name : List Char) : List Char :=
  (rpartition object_name ctrl_suffix_full).1

def check_locator_suffix_name (object_name : List Char) : Bool :=
  containsSub loc_suffix_full object_name

def remove_locator_suffix_name (object_name : List Char) : List Char :=
  (rpartition object_name loc_suffix_full).1

/-! ### control_utils: mirror_transforms (source lines 48-71)

The scene records the selected node, a child-to-parent map and per-node world
matrices (matrix entries as exact rationals).  The mirror-matrix computation is
delegated by the source to `transform_utils` (not part of the excerpt); it is
modelled here as an opaque-but-total reflection of the stored matrix, which the
theorems never need to inspect because the source returns before reaching it. -/

structure MirrorScene where
  selected : List Char
  parentOf : List (List Char × List Char)
  worldMatrices : List (List Char × List Rat)
deriving Repr, DecidableEq

def pyLookup {κ α : Type} [DecidableEq κ] (key : κ) : List (κ × α) → Option α
  | [] => none
  | (k, v) :: rest => if key = k then some v else pyLookup key rest

/-- Modelled from the spec: `transform_utils.Transform.mirror_matrix` is not in
the excerpt; the spec only says it "computes a mirrored world matrix".  It is
modelled as negating each entry; the embedding of `mirror_transforms` never
reaches it. -/
def mirror_matrix (m : List Rat) : List Rat := m.map (fun x => -x)

def setWorldMatrix (s : MirrorScene) (obj : List Char) (m : List Rat) : MirrorScene :=
  { s with worldMatrices :=
      (obj, m) :: s.worldMatrices.filter (fun p => p.1 ≠ obj) }

def l_infix : List Char := "_l_".toList

def r_infix : List Char := "_r_".toList

/-- Side-effect branch of `mirror_transforms` (source lines 63-71): look up the
parents of the object and of its mirror counterpart, mirror the parent's world
matrix and apply it to the mirror parent.  Unreachable in the source. -/
def mirrorSideEffect (s : MirrorScene) (obj mirror_obj : List Char) : MirrorScene :=
  match pyLookup obj s.parentOf, pyLookup mirror_obj s.parentOf with
  | some p_object, some p_mirror_object =>
    match pyLookup p_object s.worldMatrices with
    | some matrix => setWorldMatrix s p_mirror_object (mirror_matrix matrix)
    | none => s
  | _, _ => s

def mirror_transforms (object_name : List Char) (s : MirrorScene) : Bool × MirrorScene :=
  let obj := if object_name = [] then s.selected else object_name
  let mirror_obj_name : List Char := []
  let mirror_obj_name :=
    if containsSub l_infix obj then pyReplace obj l_infix r_infix else mirror_obj_name
  let mirror_obj_name :=
    if containsSub r_infix obj then pyReplace obj r_infix l_infix else mirror_obj_name
  if mirror_obj_name = mirror_obj_name then (false, s)
  else (true, mirrorSideEffect s obj mirror_obj_name)

/-! ### Lemmas about rpartition on appended suffixes -/

theorem occursAt_append_self (base sep : List Char) :
    occursAt sep (base ++ sep) base.length = true := by
  unfold occursAt
  rw [List.drop_left, List.take_length]
  exact beq_self_eq_true sep

theorem occursAt_eq_false (sep s : List Char) (i : Nat)
    (h : s.length - i < sep.length) : occursAt sep s i = false := by
  unfold occursAt
  have hlen : (List.take sep.length (List.drop i s)).length < sep.length := by
    rw [List.length_take, List.length_drop]
    exact lt_of_le_of_lt (Nat.min_le_right _ _) h
  have hne : List.take sep.length (List.drop i s) ≠ sep := by
    intro heq
    rw [heq] at hlen
    exact lt_irrefl _ hlen
  exact beq_eq_false_iff_ne.mpr hne

theorem rfindAux_of_occursAt (sep s : List Char) (n : Nat)
    (h : occursAt sep s n = true) : rfindAux sep s n = some n := by
  cases n <;> simp [rfindAux, h]

theorem rfindAux_step (sep s : List Char) (i : Nat)
    (h : occursAt sep s (i + 1) = false) :
    rfindAux sep s (i + 1) = rfindAux sep s i := by
  simp [rfindAux, h]

theorem rfindAux_append (base sep : List Char) (hsep : 0 < sep.length) :
    ∀ k : Nat, rfindAux sep (base ++ sep) (base.length + k) = some base.length := by
  intro k
  induction k with
  | zero => exact rfindAux_of_occursAt _ _ _ (occursAt_append_self base sep)
  | succ k ih =>
    have hf : occursAt sep (base ++ sep) (base.length + k + 1) = false := by
      apply occursAt_eq_false
      rw [List.length_append]
      omega
    have hstep := rfindAux_step sep (base ++ sep) (base.length + k) hf
    have : base.length + (k + 1) = (base.length + k) + 1 := by omega
    rw [this, hstep]
    exact ih

theorem rpartition_append (base sep : List Char) (hsep : 0 < sep.length) :
    rpartition (base ++ sep) sep = (base, sep, []) := by
  unfold rpartition
  rw [List.length_append, rfindAux_append base sep hsep]
  show (List.take base.length (base ++ sep), sep,
        List.drop (base.length + sep.length) (base ++ sep)) = (base, sep, [])
  rw [List.take_left]
  rw [List.drop_eq_nil_of_le (by rw [List.length_append])]

theorem containsSub_append_self (base sep : List Char) :
    containsSub sep (base ++ sep) = true := by
  unfold containsSub
  rw [List.any_eq_true]
  refine ⟨base.length, ?_, occursAt_append_self base sep⟩
  rw [List.mem_range, List.length_append]
  omega

/-! ### object_utils: error kinds and the node-type table (source lines 41-69, 900-914)

Failures raised by the source (`ValueError`, `RuntimeError` on name resolution,
`IOError` on a missing shape file) are modelled as an error type carried by
`Except`. -/

inductive PyError where
  | invalidInput (msg : String)
  | notFound (msg : String)
  | missingData (msg : String)
deriving DecidableEq, Repr

/-- The `OpenMaya.MFn.k*` type-identifier constants used by `node_types`. -/
inductive MFnType where
  | kNurbsCurve
  | kLocator
  | kMesh
  | kNurbsSurface
  | kUnitConversion
  | kBlendWeighted
  | kTransform
  | kFollicle
  | kDagNode
  | kJoint
  | kComponent
  | kLattice
  | kBlendShape
  | kAnimCurve
  | kSet
  | kCamera
  | kSkin
  | kSkinClusterFilter
  | kTweak
  | kDeformBend
  | kDeformSquash
  | kCluster
  | kDeltaMush
  | kWire
  | kSculpt
  | kWrapFilter
  | kShrinkWrapFilter
deriving DecidableEq, Repr

/-- An opaque dependency-node handle: the set of function-set types the node
answers `hasFn` for, plus its DAG parents and children (name strings). -/
structure MObject where
  fns : List MFnType
  parents : List String
  children : List String
deriving DecidableEq, Repr

def MObject.hasFn (o : MObject) (t : MFnType) : Bool :=
  o.fns.contains t

def node_types : List (String × MFnType) :=
  [("nurbsCurve", MFnType.kNurbsCurve),
   ("locator", MFnType.kLocator),
   ("mesh", MFnType.kMesh),
   ("nurbsSurface", MFnType.kNurbsSurface),
   ("unitConversion", MFnType.kUnitConversion),
   ("blendWeighted", MFnType.kBlendWeighted),
   ("transform", MFnType.kTransform),
   ("follicle", MFnType.kFollicle),
   ("dag", MFnType.kDagNode),
   ("joint", MFnType.kJoint),
   ("component", MFnType.kComponent),
   ("lattice", MFnType.kLattice),
   ("blendShape", MFnType.kBlendShape),
   ("animCurve", MFnType.kAnimCurve),
   ("set", MFnType.kSet),
   ("camera", MFnType.kCamera),
   ("skin", MFnType.kSkin),
   ("skinCluster", MFnType.kSkinClusterFilter),
   ("tweak", MFnType.kTweak),
   ("bend", MFnType.kDeformBend),
   ("squash", MFnType.kDeformSquash),
   ("cluster", MFnType.kCluster),
   ("deltaMush", MFnType.kDeltaMush),
   ("wire", MFnType.kWire),
   ("sculpt", MFnType.kSculpt),
   ("wrap", MFnType.kWrapFilter),
   ("shrinkWrap", MFnType.kShrinkWrapFilter)]

/-- The `shape_type` argument of `has_fn`: either a short type name (a Python
`str`) or a raw type-identifier constant (a Python `int`). -/
inductive ShapeTypeArg where
  | byName (s : String)
  | byCode (c : MFnType)
deriving DecidableEq, Repr

/-- Embedding of `has_fn` (source lines 900-914): a short name not present in
`node_types` reports `False`; a known short name resolves through the table and
queries `hasFn`; a raw code queries `hasFn` directly. -/
def has_fn (item_name : MObject) (shape_type : ShapeTypeArg) : Bool :=
  match shape_type with
  | ShapeTypeArg.byName s =>
    match pyLookup s node_types with
    | none => false
    | some c => item_name.hasFn c
  | ShapeTypeArg.byCode c => item_name.hasFn c

/-! ### object_utils: get_transform_relatives (source lines 1085-1120) -/

structure DagScene where
  nodes : List (String × MObject)
deriving DecidableEq, Repr

def get_m_obj (s : DagScene) (object_name : String) : Except PyError MObject :=
  match pyLookup object_name s.nodes with
  | some n => Except.ok n
  | none => Except.error (PyError.notFound object_name)

def get_m_parent (m_object : MObject) : List String :=
  m_object.parents

def get_m_child (m_object : MObject) : List String :=
  m_object.children

def get_transform_relatives (s : DagScene) (object_name : String)
    (find_parent find_child : Bool) : Except PyError (List String) :=
  if object_name = "" then
    Except.error (PyError.invalidInput
      "[GetTransformRelatives] :: object_name parameter is empty.")
  else if find_parent = false ∧ find_child = false then
    Except.error (PyError.invalidInput
      "[GetTransformRelatives] :: Please supply either find_parent or find_child parameters.")
  else
    match pyLookup object_name s.nodes with
    | none => Except.error (PyError.notFound object_name)
    | some m_object =>
      if has_fn m_object (ShapeTypeArg.byName "dag") = false then Except.ok []
      else if find_parent then Except.ok (get_m_parent m_object)
      else Except.ok (get_m_child m_object)

/-! ### object_utils: get_connected_nodes direction selection (source lines 1137-1141) -/

inductive GraphDirection where
  | upstream
  | downstream
deriving DecidableEq, Repr

/-- Embedding of the direction-selection prologue of `get_connected_nodes`:
`direction = None`, then overwritten by the `up_stream` flag, then overwritten
by the `down_stream` flag. -/
def get_connected_nodes_direction (up_stream down_stream : Bool) : Option GraphDirection :=
  let direction : Option GraphDirection := none
  let direction := if up_stream then some GraphDirection.upstream else direction
  let direction := if down_stream then some GraphDirection.downstream else direction
  direction

/-! ### object_utils: create_node (source lines 1829-1838)

The scene is a creation-ordered list of (name, node type) pairs; `createNode`
appends and returns the requested name (the host generates a fresh name only
when the requested one is empty or taken, which `create_node` guards against). -/

structure NodeScene where
  nodes : List (String × String)
deriving DecidableEq, Repr

def objExists (s : NodeScene) (node_name : String) : Bool :=
  s.nodes.any (fun p => p.1 == node_name)

def createNode (s : NodeScene) (node_type node_name : String) : String × NodeScene :=
  (node_name, { nodes := s.nodes ++ [(node_name, node_type)] })

def create_node (node_type node_name : String) (s : NodeScene) : String × NodeScene :=
  if objExists s node_name = false then createNode s node_type node_name
  else (node_name, s)

/-! ### object_utils: connect_attr / attr_connect / is_attr_connected
(source lines 350-357, 570-577, 1760-1769)

Connections are plug-name pairs (source plug, destination plug); a plug is
`isConnected` when it occurs on either end of some connection. -/

structure ConnScene where
  connections : List (String × String)
deriving DecidableEq, Repr

def isConnected (src dst : String) (s : ConnScene) : Bool :=
  s.connections.contains (src, dst)

def connectAttrCmd (src dst : String) (s : ConnScene) : ConnScene :=
  { connections := s.connections ++ [(src, dst)] }

def connect_attr (src_attribute dst_attribute : String) (s : ConnScene) : Bool × ConnScene :=
  if isConnected src_attribute dst_attribute s = false then
    (true, connectAttrCmd src_attribute dst_attribute s)
  else (true, s)

def attr_connect (attr_src attr_trg : String) (s : ConnScene) : Bool × ConnScene :=
  if isConnected attr_src attr_trg s = false then
    (true, connectAttrCmd attr_src attr_trg s)
  else (true, s)

def get_plug_name (object_node attr_str : String) : String :=
  object_node ++ "." ++ attr_str

def plugIsConnected (plug : String) (s : ConnScene) : Bool :=
  s.connections.any (fun c => c.1 == plug || c.2 == plug)

def is_attr_connected (object_node attr_str : String) (s : ConnScene) : Bool :=
  plugIsConnected (get_plug_name object_node attr_str) s

/-! ### object_utils: zero_transforms (source lines 1474-1484)

On an empty name the source returns (does not raise) a `ValueError` instance,
modelled as a `PyValue` carrying the message; Python truthiness of that return
value is `truthy`. -/

inductive PyValue where
  | pyBool (b : Bool)
  | valueError (msg : String)
deriving DecidableEq, Repr

def truthy : PyValue → Bool
  | PyValue.pyBool b => b
  | PyValue.valueError _ => true

structure AttrScene where
  attrs : List (String × String × Rat)
deriving DecidableEq, Repr

/-- Modelled from the spec: the `DEFAULT_ATTR_VALUES` table owned by the absent
`attribute_utils` component — translate and rotate channels default to 0,
scale channels to 1. -/
def DEFAULT_ATTR_VALUES : List (String × Rat) :=
  [("translateX", 0), ("translateY", 0), ("translateZ", 0),
   ("rotateX", 0), ("rotateY", 0), ("rotateZ", 0),
   ("scaleX", 1), ("scaleY", 1), ("scaleZ", 1)]

/-- Modelled from the spec: `attribute_utils.Attributes(name, keyable=1)
.zero_attributes()` (absent from the excerpt) resets every keyable transform
attribute of the node to its default value. -/
def zero_attributes (object_name : String) (s : AttrScene) : AttrScene :=
  { attrs := s.attrs.map (fun t =>
      if t.1 = object_name then
        match pyLookup t.2.1 DEFAULT_ATTR_VALUES with
        | some v => (t.1, t.2.1, v)
        | none => t
      else t) }

def zero_transforms (object_name : String) (s : AttrScene) : PyValue × AttrScene :=
  if object_name = "" then
    (PyValue.valueError "[ZeroTransforms] :: Please provide object_name parameter.", s)
  else
    (PyValue.pyBool true, zero_attributes object_name s)

/-! ### control_utils: create_controller_shape (source lines 302-322)

A persisted controller-shape file is a mapping from sub-curve names to records
`form / knots / cvs / degree / order`; numeric values are modelled as exact
rationals.  `create_controller_shape` issues one host curve-creation call per
record, passing `cvs[i][1:]` as points and `knots[:-2]` as the knot vector. -/

structure SubCurve where
  form : Int
  knots : List Rat
  cvs : List (List Rat)
  degree : Nat
  order : Nat
deriving DecidableEq, Repr

/-- One invocation of the host curve-creation primitive `cmds.curve(p=..., k=..., degree=...)`. -/
structure CurveCall where
  points : List (List Rat)
  knotVector : List Rat
  degree : Nat
deriving DecidableEq, Repr

/-- Python slice `l[:-2]`. -/
def pySliceDropLastTwo (l : List Rat) : List Rat :=
  l.take (l.length - 2)

/-- The `cv_points += cv_point[1:],` accumulation loop of the source. -/
def buildCvPoints (cvs : List (List Rat)) : List (List Rat) :=
  cvs.foldl (fun cv_points cv_point => cv_points ++ [cv_point.drop 1]) []

def subCurveCall (c : SubCurve) : CurveCall :=
  { points := buildCvPoints c.cvs
    knotVector := pySliceDropLastTwo c.knots
    degree := c.degree }

/-- Embedding of `create_controller_shape`: the persisted files are a mapping
from shape name to the parsed file contents (an ordered list of named
sub-curve records); a missing file raises the data-missing failure
(`get_controller_data_file`, source lines 267-278). -/
def create_controller_shape (files : List (String × List (String × SubCurve)))
    (shape_name : String) : Except PyError (List CurveCall) :=
  match pyLookup shape_name files with
  | none => Except.error (PyError.missingData shape_name)
  | some curve_data =>
    Except.ok (curve_data.foldl (fun curves cd => curves ++ [subCurveCall cd.2]) [])

/-! ### Rig scene model for the Singleton module end-to-end scenario

The scene tracks creation-ordered nodes (name, node type), a child-to-parent
map and the parent constraints created so far.  World-space positions are not
tracked: the claim under verification is purely structural. -/

structure RigConstraint where
  driver : String
  driven : String
  maintainOffset : Bool
deriving DecidableEq, Repr

structure RigScene where
  nodes : List (String × String)
  parentOf : List (String × String)
  constraints : List RigConstraint
deriving DecidableEq, Repr

def emptyRigScene : RigScene :=
  { nodes := [], parentOf := [], constraints := [] }

def addRigNode (s : RigScene) (node_name node_type : String) : RigScene :=
  { s with nodes := s.nodes ++ [(node_name, node_type)] }

def setRigParent (s : RigScene) (child parent_name : String) : RigScene :=
  { s with parentOf :=
      (s.parentOf.filter (fun p => p.1 ≠ child)) ++ [(child, parent_name)] }

def addRigConstraint (s : RigScene) (c : RigConstraint) : RigScene :=
  { s with constraints := s.constraints ++ [c] }

def rigNodeExists (s : RigScene) (node_name : String) : Bool :=
  s.nodes.any (fun p => p.1 == node_name)

/-- Modelled from the spec: `joint_utils.create_joint` (module absent from the
excerpt).  Per §4.2 the Singleton create phase "creates exactly one guide
joint named from `{name}` with a fixed suffix `_guide_jnt` (and an optional
prefix)"; with `as_strings` it returns the created joint names. -/
def create_joint (name prefix_name suffix_name : String) (s : RigScene) :
    List String × RigScene :=
  let joint_name := prefix_name ++ name ++ suffix_name
  ([joint_name], addRigNode s joint_name "joint")

/-- Embedding of `insert_transform` (object_utils source lines 1443-1471) for a
non-empty, existing target: no-op when a node with the intended group name
already exists; otherwise create the group, parent the target under it and the
group under the target's former parent, if any. -/
def insert_transform (sel_obj i_name : String) (s : RigScene) : String × RigScene :=
  if rigNodeExists s i_name then (i_name, s)
  else
    let former := pyLookup sel_obj s.parentOf
    let s2 := addRigNode s i_name "transform"
    let s3 := setRigParent s2 sel_obj i_name
    let s4 := match former with
      | some p_name => setRigParent s3 i_name p_name
      | none => s3
    (i_name, s4)

/-- Embedding of `insert_groups` (control_utils source lines 289-299). -/
def insert_groups (object_name : String) (names : List String) (s : RigScene) :
    List String × RigScene :=
  names.foldl (fun acc name =>
    let r := insert_transform object_name name acc.2
    (acc.1 ++ [r.1], r.2)) ([], s)

structure ControllerData where
  controller : String
  group_names : List String
deriving DecidableEq, Repr

/-- Modelled from the spec: the persisted "cube" shape file together with
`create_controller_shape` and `parent_curve_shapes` (source lines 302-348)
produce one merged curve transform per logical controller (§4.3: all sub-curve
shape nodes are merged into one transform and the leftover transforms are
deleted); the merged result is modelled as a single `nurbsCurve` transform. -/
def createMergedCurve (s : RigScene) (curve_name : String) : RigScene :=
  addRigNode s curve_name "nurbsCurve"

/-- Embedding of `create_control` (control_utils source lines 351-370): build
the merged curve, rename it to the requested name (or the shape name) and
insert one offset group per entry of `groups` (default a single `grp`). -/
def create_control (shape_name name : String) (groups : List String) (s : RigScene) :
    ControllerData × RigScene :=
  let curve_name := if name ≠ "" then name else shape_name
  let s2 := createMergedCurve s curve_name
  let group_names := groups.map (fun g => curve_name ++ "_" ++ g)
  let r := insert_groups curve_name group_names s2
  ({ controller := curve_name, group_names := r.1 }, r.2)

/-- Embedding of `create_control_at_transform` (source lines 373-383); the
world-matrix snap of the outermost group is not tracked by `RigScene`. -/
def create_control_at_transform (object_name name shape_name : String) (s : RigScene) :
    ControllerData × RigScene :=
  create_control shape_name name ["grp"] s

/-- Embedding of `create_controls` (source lines 386-400): one controller per
input transform, auto-named `{name}_{idx}_ctrl`. -/
def create_controls (objects_array : List String) (name shape_name : String)
    (s : RigScene) : List ControllerData × RigScene :=
  let names := (List.range objects_array.length).map
    (fun idx => name ++ "_" ++ toString idx ++ "_" ++ "ctrl")
  (objects_array.zip names).foldl
    (fun acc p =>
      let r := create_control_at_transform p.1 p.2 shape_name acc.2
      (acc.1 ++ [r.1], r.2)) ([], s)

/-- Modelled from the spec: `create_controllers_with_standard_constraints` is
called by `Singleton.finish` but absent from the excerpt.  Per §4.2, finish
"builds a controller (shape chosen at construction, default cube) constrained
to that guide joint via a parent constraint with maintain-offset semantics":
modelled as `create_controls` over the constraint objects followed by one
maintain-offset parent constraint from each created controller to its object,
returning the controller record. -/
def create_controllers_with_standard_constraints (name : String)
    (objects_array : List String) (shape_name : String) (s : RigScene) :
    ControllerData × RigScene :=
  let r := create_controls objects_array name shape_name s
  let s2 := (r.1.zip objects_array).foldl
    (fun sc p => addRigConstraint sc
      { driver := p.1.controller, driven := p.2, maintainOffset := true }) r.2
  (r.1.headD { controller := "", group_names := [] }, s2)

/-! ### The Singleton rig module (singleton_v0000.py) -/

structure Singleton where
  name : String
  prefix_name : String
  control_shape : String
  controller_data : ControllerData
  guide_joints : List String
  parentTo : String
  constrainTo : String
deriving DecidableEq, Repr

/-- Modelled from the spec: the absent `TemplateModule` base publishes the two
conventional parameters `parentTo` and `constrainTo`, defaulting to empty. -/
def Singleton.init (name control_shape prefix_name : String) : Singleton :=
  { name := name
    prefix_name := prefix_name
    control_shape := control_shape
    controller_data := { controller := "", group_names := [] }
    guide_joints := []
    parentTo := ""
    constrainTo := "" }

def Singleton.suffix_name : String := "_guide_jnt"

/-- Embedding of `Singleton.create_joint` (source lines 26-34). -/
def Singleton.create_joint_step (m : Singleton) (s : RigScene) : Singleton × RigScene :=
  let r := create_joint m.name m.prefix_name Singleton.suffix_name s
  ({ m with guide_joints := m.guide_joints ++ [r.1.headD ""] }, r.2)

/-- Embedding of `Singleton.create` (source lines 45-51). -/
def Singleton.create (m : Singleton) (s : RigScene) : Bool × Singleton × RigScene :=
  let r := Singleton.create_joint_step m s
  (true, r.1, r.2)

/-- Embedding of `Singleton.create_controller` (source lines 36-43). -/
def Singleton.create_controller (m : Singleton) (constraint_object : List String)
    (s : RigScene) : ControllerData × RigScene :=
  create_controllers_with_standard_constraints (m.prefix_name ++ m.name)
    constraint_object m.control_shape s

/-- Embedding of `Singleton.finish` (source lines 70-82).  Modelled from the
spec: the source reads `self.guide_joint`, a slot of the absent
`TemplateModule`; per §4.2 finish constrains the controller to "that guide
joint" built by `create()`, so the slot is modelled as the created guide-joint
list. -/
def Singleton.finish (m : Singleton) (s : RigScene) : Bool × Singleton × RigScene :=
  let r := Singleton.create_controller m m.guide_joints s
  let controller_data := r.1
  let s2 := r.2
  let s3 := if m.constrainTo ≠ "" then
      addRigConstraint s2
        { driver := controller_data.controller, driven := m.constrainTo,
          maintainOffset := true }
    else s2
  let s4 := if m.parentTo ≠ "" then
      setRigParent s3 (controller_data.group_names.getLastD "") m.parentTo
    else s3
  (true, { m with controller_data := controller_data }, s4)

/-- The scene produced by the C1 end-to-end scenario: empty scene, Singleton
module named "arm" with the default "cube" shape and no prefix, `create()`
then `finish()` with neither `parentTo` nor `constrainTo` published. -/
def singletonScenarioScene : RigScene :=
  (Singleton.finish
    (Singleton.create (Singleton.init "arm" "cube" "") emptyRigScene).2.1
    (Singleton.create (Singleton.init "arm" "cube" "") emptyRigScene).2.2).2.2

/-! ### Helper lemmas shared by the claim theorems -/

theorem foldl_append_singleton {α β : Type} (f : α → β) (l : List α) (acc : List β) :
    l.foldl (fun r x => r ++ [f x]) acc = acc ++ l.map f := by
  induction l generalizing acc with
  | nil => simp
  | cons x xs ih => simp [ih]

theorem buildCvPoints_eq_map (cvs : List (List Rat)) :
    buildCvPoints cvs = cvs.map (fun cv => cv.drop 1) := by
  unfold buildCvPoints
  simpa using foldl_append_singleton (fun cv : List Rat => cv.drop 1) cvs []

theorem pyLookup_eq_none_of_not_mem {α : Type} (s : String) (l : List (String × α))
    (h : ∀ c, (s, c) ∉ l) : pyLookup s l = none := by
  induction l with
  | nil => rfl
  | cons kv rest ih =>
    obtain ⟨k, v⟩ := kv
    by_cases hk : s = k
    · subst hk
      exact absurd (List.mem_cons_self _ _) (h v)
    · simp only [pyLookup, if_neg hk]
      exact ih (fun c hc => h c (List.mem_cons_of_mem _ hc))

/-! ### Claim theorems -/

/-- C1: starting from an empty scene, constructing a Singleton module with
name "arm", calling create(), then finish() with neither parentTo nor
constrainTo published, results in exactly one joint named arm_guide_jnt, one
controller curve, and a maintain-offset parent constraint from the controller
to that guide joint; no node is parented anywhere else (the only parent link
is the controller under its own offset group). -/
theorem singleton_end_to_end_scenario :
    (Singleton.create (Singleton.init "arm" "cube" "") emptyRigScene).1 = true ∧
    (Singleton.finish
        (Singleton.create (Singleton.init "arm" "cube" "") emptyRigScene).2.1
        (Singleton.create (Singleton.init "arm" "cube" "") emptyRigScene).2.2).1 = true ∧
    (singletonScenarioScene.nodes.filter (fun p => p.2 = "joint")).map Prod.fst
      = ["arm_guide_jnt"] ∧
    (singletonScenarioScene.nodes.filter (fun p => p.2 = "nurbsCurve")).map Prod.fst
      = ["arm_0_ctrl"] ∧
    singletonScenarioScene.constraints
      = [{ driver := "arm_0_ctrl", driven := "arm_guide_jnt", maintainOffset := true }] ∧
    singletonScenarioScene.parentOf = [("arm_0_ctrl", "arm_0_ctrl_grp")] := by
  decide

/-- C2: for every object name containing the substring `_l_` or `_r_`,
`mirror_transforms` returns False immediately after computing the mirror
counterpart name and leaves the scene untouched; indeed the self-comparison
`mirror_obj_name == mirror_obj_name` makes the mirroring side-effect code
unreachable for every input whatsoever. -/
theorem mirror_transforms_always_false :
    (∀ (object_name : List Char) (s : MirrorScene),
        containsSub l_infix object_name = true ∨ containsSub r_infix object_name = true →
        mirror_transforms object_name s = (false, s)) ∧
    ∀ (object_name : List Char) (s : MirrorScene),
      mirror_transforms object_name s = (false, s) := by
  constructor
  · intro object_name s _
    simp [mirror_transforms]
  · intro object_name s
    simp [mirror_transforms]

/-- Witness for C2 at the concrete name "a_l_b" and an empty scene. -/
theorem mirror_transforms_always_false_witness :
    mirror_transforms "a_l_b".toList
        { selected := [], parentOf := [], worldMatrices := [] }
      = (false, { selected := [], parentOf := [], worldMatrices := [] }) :=
  mirror_transforms_always_false.1 "a_l_b".toList
    { selected := [], parentOf := [], worldMatrices := [] } (Or.inl (by decide))

/-- C3: for every persisted controller-shape file, `create_controller_shape`
issues one curve-creation call per sub-curve record, whose points are the
record's control vertices with the leading index column dropped
(`cvs[i][1:]`) and whose knot vector is the record's knot sequence truncated
by its last two entries (`knots[:-2]`). -/
theorem create_controller_shape_contract
    (files : List (String × List (String × SubCurve))) (shape_name : String)
    (data : List (String × SubCurve))
    (h : pyLookup shape_name files = some data) :
    ∃ calls, create_controller_shape files shape_name = Except.ok calls ∧
      calls.length = data.length ∧
      ∀ i : Nat,
        calls[i]?.map CurveCall.points
          = data[i]?.map (fun cd => cd.2.cvs.map (fun cv => cv.drop 1)) ∧
        calls[i]?.map CurveCall.knotVector
          = data[i]?.map (fun cd => cd.2.knots.take (cd.2.knots.length - 2)) := by
  refine ⟨data.map (fun cd => subCurveCall cd.2), ?_, by simp, ?_⟩
  · unfold create_controller_shape
    rw [h]
    simpa using foldl_append_singleton
      (fun cd : String × SubCurve => subCurveCall cd.2) data []
  · intro i
    constructor
    · rw [List.getElem?_map]
      cases hd : data[i]? with
      | none => rfl
      | some cd =>
        simp [subCurveCall, buildCvPoints_eq_map]
    · rw [List.getElem?_map]
      cases hd : data[i]? with
      | none => rfl
      | some cd =>
        simp [subCurveCall, pySliceDropLastTwo]

/-- Witness for C3 at a concrete one-record shape file. -/
theorem create_controller_shape_contract_witness :
    ∃ calls,
      create_controller_shape
        [("cube", [("curveShape1",
            { form := 0, knots := [0, 1, 2, 3, 4],
              cvs := [[0, 1, 2, 3], [1, 4, 5, 6]], degree := 1, order := 2 })])]
        "cube" = Except.ok calls := by
  obtain ⟨calls, hok, -, -⟩ := create_controller_shape_contract
    [("cube", [("curveShape1",
        { form := 0, knots := [0, 1, 2, 3, 4],
          cvs := [[0, 1, 2, 3], [1, 4, 5, 6]], degree := 1, order := 2 })])]
    "cube"
    [("curveShape1",
      { form := 0, knots := [0, 1, 2, 3, 4],
        cvs := [[0, 1, 2, 3], [1, 4, 5, 6]], degree := 1, order := 2 })]
    (by rfl)
  exact ⟨calls, hok⟩

/-- C4: for every node and every short type name in the node-type table,
`has_fn` answers exactly the node's `hasFn` test on the table's code for that
name (True when the node has the type, False when it does not); for a short
name not present in the table it returns False rather than raising. -/
theorem has_fn_node_type_table (o : MObject) (s : String) :
    (∀ c : MFnType, (s, c) ∈ node_types →
        has_fn o (ShapeTypeArg.byName s) = MObject.hasFn o c) ∧
    ((∀ c : MFnType, (s, c) ∉ node_types) →
        has_fn o (ShapeTypeArg.byName s) = false) := by
  constructor
  · intro c hc
    fin_cases hc <;> rfl
  · intro hall
    show (match pyLookup s node_types with
          | none => false
          | some c => MObject.hasFn o c) = false
    rw [pyLookup_eq_none_of_not_mem s node_types hall]

/-- Witness for C4 at a concrete mesh node, the known short name "mesh" and
the unknown short name "bogus". -/
theorem has_fn_node_type_table_witness :
    has_fn { fns := [MFnType.kMesh], parents := [], children := [] }
        (ShapeTypeArg.byName "mesh") = true ∧
    has_fn { fns := [MFnType.kMesh], parents := [], children := [] }
        (ShapeTypeArg.byName "bogus") = false := by
  constructor
  · rw [(has_fn_node_type_table
        { fns := [MFnType.kMesh], parents := [], children := [] } "mesh").1
        MFnType.kMesh (by decide)]
    decide
  · exact (has_fn_node_type_table
      { fns := [MFnType.kMesh], parents := [], children := [] } "bogus").2
      (by intro c; cases c <;> decide)

/-- C5: `get_transform_relatives` fails with InvalidInput on an empty object
name, separately fails with InvalidInput when neither find_parent nor
find_child is set, and when both validations pass but the resolved node is
not a DAG node it returns an empty result instead of raising. -/
theorem get_transform_relatives_validation (s : DagScene) (object_name : String)
    (find_parent find_child : Bool) :
    get_transform_relatives s "" find_parent find_child
      = Except.error (PyError.invalidInput
          "[GetTransformRelatives] :: object_name parameter is empty.") ∧
    (object_name ≠ "" →
      get_transform_relatives s object_name false false
        = Except.error (PyError.invalidInput
            "[GetTransformRelatives] :: Please supply either find_parent or find_child parameters.")) ∧
    (∀ m_object : MObject, object_name ≠ "" →
      (find_parent = true ∨ find_child = true) →
      pyLookup object_name s.nodes = some m_object →
      has_fn m_object (ShapeTypeArg.byName "dag") = false →
      get_transform_relatives s object_name find_parent find_child = Except.ok []) := by
  refine ⟨rfl, ?_, ?_⟩
  · intro h
    simp [get_transform_relatives, h]
  · intro m_object h hflags hlook hdag
    unfold get_transform_relatives
    rw [if_neg h, if_neg (by rcases hflags with h1 | h1 <;> simp [h1]), hlook]
    simp [hdag]

/-- Witness for C5 on a one-node scene holding a non-DAG node. -/
theorem get_transform_relatives_validation_witness :
    get_transform_relatives { nodes := [("node1", { fns := [], parents := [], children := [] })] }
        "" false false
      = Except.error (PyError.invalidInput
          "[GetTransformRelatives] :: object_name parameter is empty.") ∧
    get_transform_relatives { nodes := [("node1", { fns := [], parents := [], children := [] })] }
        "node1" false false
      = Except.error (PyError.invalidInput
          "[GetTransformRelatives] :: Please supply either find_parent or find_child parameters.") ∧
    get_transform_relatives { nodes := [("node1", { fns := [], parents := [], children := [] })] }
        "node1" true false = Except.ok [] := by
  refine ⟨(get_transform_relatives_validation
      { nodes := [("node1", { fns := [], parents := [], children := [] })] } "" false false).1,
    (get_transform_relatives_validation
      { nodes := [("node1", { fns := [], parents := [], children := [] })] } "node1" false false).2.1
      (by decide),
    (get_transform_relatives_validation
      { nodes := [("node1", { fns := [], parents := [], children := [] })] } "node1" true false).2.2
      { fns := [], parents := [], children := [] } (by decide) (Or.inl rfl) (by rfl) (by decide)⟩

/-- C6: `create_node` is idempotent — two identical calls return the same
node name and the second call creates no new node. -/
theorem create_node_idempotent (node_type node_name : String) (s : NodeScene)
    (h : node_name ≠ "") :
    (create_node node_type node_name s).1 = node_name ∧
    (create_node node_type node_name (create_node node_type node_name s).2).1 = node_name ∧
    (create_node node_type node_name (create_node node_type node_name s).2).2
      = (create_node node_type node_name s).2 := by
  unfold create_node createNode objExists
  cases h1 : s.nodes.any (fun p => p.1 == node_name) with
  | true => simp [h1]
  | false => simp [h1, List.any_append]

/-- Witness for C6: creating the transform "foo" twice in an empty scene. -/
theorem create_node_idempotent_witness :
    (create_node "transform" "foo" { nodes := [] }).1 = "foo" ∧
    (create_node "transform" "foo" (create_node "transform" "foo" { nodes := [] }).2).1 = "foo" ∧
    (create_node "transform" "foo" (create_node "transform" "foo" { nodes := [] }).2).2
      = (create_node "transform" "foo" { nodes := [] }).2 :=
  create_node_idempotent "transform" "foo" { nodes := [] } (by decide)

/-- C7: `attr_connect` and `connect_attr` are the same operation and are
idempotent — two calls on the same pair leave exactly one connection, both
calls return True, and `is_attr_connected` reports True on the destination
afterward. -/
theorem attr_connect_idempotent (src object_node attr_str : String) (s : ConnScene)
    (h : List.count (src, get_plug_name object_node attr_str) s.connections = 0) :
    attr_connect = connect_attr ∧
    (connect_attr src (get_plug_name object_node attr_str) s).1 = true ∧
    (connect_attr src (get_plug_name object_node attr_str)
        (connect_attr src (get_plug_name object_node attr_str) s).2).1 = true ∧
    (connect_attr src (get_plug_name object_node attr_str)
        (connect_attr src (get_plug_name object_node attr_str) s).2).2
      = (connect_attr src (get_plug_name object_node attr_str) s).2 ∧
    List.count (src, get_plug_name object_node attr_str)
        ((connect_attr src (get_plug_name object_node attr_str) s).2).connections = 1 ∧
    is_attr_connected object_node attr_str
        (connect_attr src (get_plug_name object_node attr_str) s).2 = true := by
  have hmem : (src, get_plug_name object_node attr_str) ∉ s.connections :=
    List.count_eq_zero.mp h
  have hc : isConnected src (get_plug_name object_node attr_str) s = false := by
    unfold isConnected
    simpa using hmem
  have h1 : connect_attr src (get_plug_name object_node attr_str) s
      = (true, { connections :=
          s.connections ++ [(src, get_plug_name object_node attr_str)] }) := by
    unfold connect_attr
    rw [hc]
    simp [connectAttrCmd]
  have h2 : isConnected src (get_plug_name object_node attr_str)
      { connections := s.connections ++ [(src, get_plug_name object_node attr_str)] }
      = true := by
    unfold isConnected
    simp
  have h3 : connect_attr src (get_plug_name object_node attr_str)
      { connections := s.connections ++ [(src, get_plug_name object_node attr_str)] }
      = (true, { connections :=
          s.connections ++ [(src, get_plug_name object_node attr_str)] }) := by
    unfold connect_attr
    rw [h2]
    simp
  refine ⟨rfl, ?_, ?_, ?_, ?_, ?_⟩
  · rw [h1]
  · rw [h1, h3]
  · rw [h1, h3]
  · rw [h1]
    simp [List.count_append, h]
  · rw [h1]
    simp [is_attr_connected, plugIsConnected, List.any_append]

/-- Witness for C7: connecting "a.out" to "b.in" twice in an empty scene. -/
theorem attr_connect_idempotent_witness :
    (connect_attr "a.out" (get_plug_name "b" "in") { connections := [] }).1 = true ∧
    List.count ("a.out", get_plug_name "b" "in")
        ((connect_attr "a.out" (get_plug_name "b" "in") { connections := [] }).2).connections = 1 ∧
    is_attr_connected "b" "in"
        (connect_attr "a.out" (get_plug_name "b" "in") { connections := [] }).2 = true := by
  obtain ⟨-, h1, -, -, h5, h6⟩ :=
    attr_connect_idempotent "a.out" "b" "in" { connections := [] } (by decide)
  exact ⟨h1, h5, h6⟩

/-- C8: for every base, the name base ++ "_ctrl" passes
`check_control_suffix_name` and `remove_control_suffix_name` gives back
exactly the base; moreover the check predicate accepts any name containing
"_ctrl" anywhere, not only at the end. -/
theorem control_suffix_check_remove_consistent :
    ∀ base : List Char,
      check_control_suffix_name (base ++ ctrl_suffix_full) = true ∧
      remove_control_suffix_name (base ++ ctrl_suffix_full) = base ∧
      ∀ s : List Char, containsSub ctrl_suffix_full s = true →
        check_control_suffix_name s = true := by
  intro base
  refine ⟨containsSub_append_self base ctrl_suffix_full, ?_, fun s h => h⟩
  unfold remove_control_suffix_name
  rw [rpartition_append base ctrl_suffix_full (by decide)]

/-- Witness for C8 at the base "arm" and the mid-name occurrence "x_ctrl_y". -/
theorem control_suffix_check_remove_consistent_witness :
    check_control_suffix_name ("arm".toList ++ ctrl_suffix_full) = true ∧
    remove_control_suffix_name ("arm".toList ++ ctrl_suffix_full) = "arm".toList ∧
    check_control_suffix_name "x_ctrl_y".toList = true :=
  ⟨(control_suffix_check_remove_consistent "arm".toList).1,
   (control_suffix_check_remove_consistent "arm".toList).2.1,
   (control_suffix_check_remove_consistent "arm".toList).2.2 "x_ctrl_y".toList (by decide)⟩

/-- C9: in `get_connected_nodes`, when both direction flags are true the
down-stream assignment overwrites the up-stream choice, and when exactly one
flag is true the traversal follows that flag. -/
theorem get_connected_nodes_direction_overwrite :
    get_connected_nodes_direction true true = some GraphDirection.downstream ∧
    get_connected_nodes_direction true false = some GraphDirection.upstream ∧
    get_connected_nodes_direction false true = some GraphDirection.downstream := by
  decide

/-- C10: `zero_transforms` on an empty object name does not raise and zeroes
nothing — it returns a ValueError object as its value, whose truthiness
equals that of a successful call, so the failure is indistinguishable from
success to a caller testing the result's truth value. -/
theorem zero_transforms_empty_name (s : AttrScene) :
    zero_transforms "" s
      = (PyValue.valueError "[ZeroTransforms] :: Please provide object_name parameter.", s) ∧
    truthy (zero_transforms "" s).1 = true ∧
    (zero_transforms "" s).2 = s ∧
    truthy (zero_transforms "" s).1 = truthy (zero_transforms "some_node" s).1 :=
  ⟨rfl, rfl, rfl, rfl⟩

end RigSpec
